import Mathlib

/-!
Verification of `cymel/initmaya.py` (the cymel repository's Maya bootstrap
module) against its natural-language specification.

The Python module is embedded shallowly:

* Machine/Python integers become `Nat`/`Int`.  The module targets mayapy
  (Python 2 for every Maya release that can reach the fallback version
  parser), where `/` on integers is floor division, embedded as `Int.fdiv`.
* Python exceptions become `Except`; `try/except: pass` becomes a match that
  maps the error case to a success.
* `os.environ` becomes a function `String → Option String`; a Python string
  truthiness test (`if path:`) is `Option`-`isSome` plus a non-emptiness
  test.
* Process-global facts queried from the Maya runtime (the `cmds.about`
  probes, `maya.__file__`, the user document path, the file system) are
  fixed parameters of one record per process, since they do not change for
  the lifetime of a mayapy process.
-/

namespace Cymel

/-! ### `_initCymelConstants`: the MAYA_VERSION computation

`MAYA_PRODUCT_VERSION` is matched by the regex `.+/(\d+(?:\.\d+)?)`, so it
is one or two dot-separated runs of digits; we carry it parsed, as the
leading integer `pvMajor` and the list `pvRest` of the remaining integer
components (`MAYA_PRODUCT_VERSION.split('.')` mapped through `int`).

The code branches on `float(MAYA_PRODUCT_VERSION)`:
`v >= 2018.` holds exactly when `pvMajor ≥ 2018` (a fractional part
`.\d+` is in `[0, 1)`), and `v == 2017.` holds exactly when
`pvMajor = 2017` and the fractional digits are all zero, i.e. every entry
of `pvRest` is `0`.  (We use the exact rational value of the literal; for
the at-most-single-digit fractions Maya ever shipped the IEEE-754 value
compares identically.)
-/

/-- Embedding of the `except:` branch of `_initCymelConstants`
(initmaya.py lines 274-299): the version tuple computed from
`MAYA_PRODUCT_VERSION` and `about(api=True)` when the
`about(mjv/mnv/pv)` probe is unavailable.  Python 2 integer `/` is
`Int.fdiv` (floor division). -/
def fallbackMayaVersion (pvMajor : Nat) (pvRest : List Nat) (api : Int) : List Int :=
  if 2018 ≤ pvMajor then
    -- `v = (v / 10000, (v - v / 10000 * 10000) / 100, v - v / 100 * 100)`
    [api.fdiv 10000, (api - api.fdiv 10000 * 10000).fdiv 100, api - api.fdiv 100 * 100]
  else if pvMajor = 2017 ∧ pvRest.all (· == 0) then
    -- `v = _about(api=True) - 201700`
    let v : Int := api - 201700
    if v < 1 then [2017, 0, 0]
    else if v < 20 then [2017, 1, v - 1]
    else
      -- `v -= 20; x = v / 20; v = (2017, x + 2, v - x * 20)`
      let w := v - 20
      let x := w.fdiv 20
      [2017, x + 2, w - x * 20]
  else
    -- `v = tuple([int(x) for x in MAYA_PRODUCT_VERSION.split('.')])`
    -- `v += (0,) * (3 - len(v))`
    let l := (pvMajor :: pvRest).map Int.ofNat
    l ++ List.replicate (3 - l.length) 0

/-- Embedding of the whole MAYA_VERSION computation of `_initCymelConstants`
(initmaya.py lines 270-300): `probe` is `some (mjv, mnv, pv)` when the
2019.1+ `about` options succeed and `none` when that `try` block raises. -/
def computeMayaVersion (probe : Option (Int × Int × Int)) (pvMajor : Nat)
    (pvRest : List Nat) (api : Int) : List Int :=
  match probe with
  | some (a, b, c) => [a, b, c]
  | none => fallbackMayaVersion pvMajor pvRest api

/-- CPython sequence indexing `t[i]`: a negative index counts from the end
once; an index still out of range raises IndexError, embedded as `none`. -/
def pyIndex (t : List Int) (i : Int) : Option Int :=
  let j := if i < 0 then i + t.length else i
  if 0 ≤ j then t.get? j.toNat else none

/-- CPython slicing `t[:k]` (negative `k` counts from the end, clamped). -/
def pySliceTo (t : List Int) (k : Int) : List Int :=
  let j := if k < 0 then k + t.length else k
  t.take j.toNat

/-- Result of the `while not MAYA_VERSION[v]: v -= 1` scan. -/
inductive TruncRes where
  /-- The loop exited normally with this final index. -/
  | stop (v : Int)
  /-- An iteration indexed outside the tuple (Python IndexError). -/
  | indexError
  /-- Fuel ran out (never happens with fuel ≥ 2·length + 2). -/
  | fuelOut
deriving DecidableEq, Repr

/-- Embedding of `v = 2; while not MAYA_VERSION[v]: v -= 1`
(initmaya.py lines 301-303), fuelled; an integer component is falsy
exactly when it is `0`. -/
def truncLoop (t : List Int) : Nat → Int → TruncRes
  | 0, _ => .fuelOut
  | fuel + 1, v =>
    match pyIndex t v with
    | none => .indexError
    | some x => if x = 0 then truncLoop t fuel (v - 1) else .stop v

/-- Embedding of the MAYA_VERSION_STR computation (initmaya.py lines
301-304): `'.'.join([str(v) for v in MAYA_VERSION[:v + 1]])` after the
truncation scan; `none` models an uncaught IndexError. -/
def mayaVersionStrOf (t : List Int) (fuel : Nat) : Option String :=
  match truncLoop t fuel 2 with
  | .stop v => some (String.intercalate "." ((pySliceTo t (v + 1)).map toString))
  | _ => none

/-- C1: with the `about(mjv/mnv/pv)` probe unavailable, the fallback parser
normalises every known historical encoding: product version ≥ 2018 decodes
an `MMMMnnpp` API build to `(MMMM, nn, pp)`; product version 2017 decodes
`201700` to `(2017, 0, 0)`, `201701..201719` to `(2017, 1, build - 201701)`
and `build ≥ 201720` to `(2017, 2 + (build - 201720) / 20,
(build - 201720) % 20)`; earlier product versions split the dotted version
string into integers right-padded with zeros to length 3. -/
theorem fallback_version_parsing_c1 :
    (∀ (pvMajor : Nat) (pvRest : List Nat) (M n p : Nat),
        2018 ≤ pvMajor → n < 100 → p < 100 →
        computeMayaVersion none pvMajor pvRest ((M : Int) * 10000 + n * 100 + p) =
          [(M : Int), (n : Int), (p : Int)]) ∧
    (∀ pvRest : List Nat, pvRest.all (· == 0) →
        computeMayaVersion none 2017 pvRest 201700 = [2017, 0, 0]) ∧
    (∀ (pvRest : List Nat) (b : Int), pvRest.all (· == 0) →
        201701 ≤ b → b ≤ 201719 →
        computeMayaVersion none 2017 pvRest b = [2017, 1, b - 201701]) ∧
    (∀ (pvRest : List Nat) (b : Int), pvRest.all (· == 0) → 201720 ≤ b →
        computeMayaVersion none 2017 pvRest b =
          [2017, 2 + (b - 201720) / 20, (b - 201720) % 20]) ∧
    (∀ (pvMajor : Nat) (pvRest : List Nat) (api : Int),
        pvMajor < 2018 → ¬(pvMajor = 2017 ∧ pvRest.all (· == 0)) →
        computeMayaVersion none pvMajor pvRest api =
          (pvMajor :: pvRest).map Int.ofNat ++ List.replicate (2 - pvRest.length) 0 ∧
        (pvRest.length ≤ 1 →
          (computeMayaVersion none pvMajor pvRest api).length = 3)) := by
  refine ⟨?_, ?_, ?_, ?_, ?_⟩
  · intro pvMajor pvRest M n p h2018 hn hp
    show fallbackMayaVersion pvMajor pvRest _ = _
    unfold fallbackMayaVersion
    rw [if_pos h2018]
    rw [Int.fdiv_eq_ediv _ (by norm_num), Int.fdiv_eq_ediv _ (by norm_num),
      Int.fdiv_eq_ediv _ (by norm_num)]
    simp only [List.cons.injEq, and_true]
    refine ⟨?_, ?_, ?_⟩ <;> omega
  · intro pvRest hrest
    show fallbackMayaVersion 2017 pvRest 201700 = _
    unfold fallbackMayaVersion
    rw [if_neg (by norm_num), if_pos ⟨rfl, hrest⟩]
    norm_num
  · intro pvRest b hrest h1 h2
    show fallbackMayaVersion 2017 pvRest b = _
    unfold fallbackMayaVersion
    rw [if_neg (by norm_num), if_pos ⟨rfl, hrest⟩]
    rw [if_neg (by omega), if_pos (by omega)]
    simp only [List.cons.injEq, and_true, true_and]
    omega
  · intro pvRest b hrest h20
    show fallbackMayaVersion 2017 pvRest b = _
    unfold fallbackMayaVersion
    rw [if_neg (by norm_num), if_pos ⟨rfl, hrest⟩]
    rw [if_neg (by omega), if_neg (by omega)]
    show [2017, (b - 201700 - 20).fdiv 20 + 2,
      (b - 201700 - 20) - (b - 201700 - 20).fdiv 20 * 20] = _
    rw [Int.fdiv_eq_ediv _ (by norm_num)]
    simp only [List.cons.injEq, and_true, true_and]
    constructor <;> omega
  · intro pvMajor pvRest api hlt hnot
    have hcond : ¬ (2018 ≤ pvMajor) := by omega
    constructor
    · show fallbackMayaVersion pvMajor pvRest api = _
      unfold fallbackMayaVersion
      rw [if_neg hcond, if_neg hnot]
      simp [List.length_map]
    · intro hlen
      show (fallbackMayaVersion pvMajor pvRest api).length = 3
      unfold fallbackMayaVersion
      rw [if_neg hcond, if_neg hnot]
      simp only [List.length_append, List.length_map, List.length_replicate,
        List.length_cons]
      omega

/-- Witness for C1 at concrete inputs: Maya 2018 API build 20180203 parses
to (2018, 2, 3) and Maya 2017 API build 201780 (update 5) to (2017, 5, 0). -/
theorem fallback_version_parsing_c1_witness :
    computeMayaVersion none 2018 [] ((2018 : Int) * 10000 + 2 * 100 + 3) =
      [(2018 : Int), (2 : Int), (3 : Int)] ∧
    computeMayaVersion none 2017 [] 201780 = [2017, 5, 0] := by
  constructor
  · exact fallback_version_parsing_c1.1 2018 [] 2018 2 3 (by norm_num)
      (by norm_num) (by norm_num)
  · have h := fallback_version_parsing_c1.2.2.2.1 [] 201780 (by decide) (by norm_num)
    rw [h]
    norm_num

/-- C10: when the major component is non-zero, MAYA_VERSION_STR joins the
components with '.' after truncating trailing zero components, always
keeping the major component; on an all-zero tuple the truncation loop
indexes outside the tuple (after wrapping through Python's negative
indices) and raises IndexError. -/
theorem maya_version_str_c10 (a b c : Int) (ha : a ≠ 0) :
    mayaVersionStrOf [a, b, c] 8 =
      some (String.intercalate "."
        ((if c ≠ 0 then [a, b, c] else if b ≠ 0 then [a, b] else [a]).map toString)) ∧
    truncLoop [0, 0, 0] 8 2 = .indexError := by
  constructor
  · by_cases hc : c = 0
    · by_cases hb : b = 0
      · subst hc; subst hb
        simp [mayaVersionStrOf, truncLoop, pyIndex, pySliceTo, ha]
      · subst hc
        simp [mayaVersionStrOf, truncLoop, pyIndex, pySliceTo, hb]
    · simp [mayaVersionStrOf, truncLoop, pyIndex, pySliceTo, hc]
  · decide

/-- Witness for C10 at the concrete tuple (2019, 1, 0), whose rendering
drops only the trailing zero. -/
theorem maya_version_str_c10_witness :
    mayaVersionStrOf [2019, 1, 0] 8 =
      some (String.intercalate "."
        ((if (0 : Int) ≠ 0 then [(2019 : Int), 1, 0]
          else if (1 : Int) ≠ 0 then [(2019 : Int), 1] else [(2019 : Int)]).map
          toString)) ∧
    truncLoop [0, 0, 0] 8 2 = .indexError :=
  maya_version_str_c10 2019 1 0 (by decide)

/-! ### `isMayaInitialized` -/

/-- Ways the body of `isMayaInitialized` can raise: the `import maya.cmds`
statement, the `cmds.about` attribute access, or anything else (the
`except:` clause is bare, so every exception class is caught). -/
inductive ProbeFail where
  /-- `import maya.cmds` raised. -/
  | importError
  /-- The `cmds.about` attribute access raised. -/
  | attrError
  /-- Any other exception. -/
  | other
deriving DecidableEq, Repr

/-- Embedding of `isMayaInitialized` (initmaya.py lines 75-86): the probe
outcome (importing `maya.cmds` then touching `cmds.about`) is the
parameter; the bare `except:` maps every failure to `False`.  The result
type `Bool` (not `Except`) records that the function itself never
raises. -/
def isMayaInitializedOf (probe : Except ProbeFail Unit) : Bool :=
  match probe with
  | .error _ => false
  | .ok _ => true

/-- C9: `isMayaInitialized` never raises, returns `False` whenever the
module import or the attribute access fails for any reason, and returns
`True` otherwise. -/
theorem is_maya_initialized_total_c9 (probe : Except ProbeFail Unit) :
    (∀ e : ProbeFail, probe = .error e → isMayaInitializedOf probe = false) ∧
    (∀ u : Unit, probe = .ok u → isMayaInitializedOf probe = true) := by
  cases probe <;> simp [isMayaInitializedOf]

/-- Witness for C9: an import failure yields `False`, a successful probe
yields `True`. -/
theorem is_maya_initialized_total_c9_witness :
    isMayaInitializedOf (.error .importError) = false ∧
    isMayaInitializedOf (.ok ()) = true :=
  ⟨(is_maya_initialized_total_c9 (.error .importError)).1 .importError rfl,
   (is_maya_initialized_total_c9 (.ok ())).2 () rfl⟩

/-! ### `initApiImmutables` -/

/-- The two Maya API namespaces patched by `initApiImmutables`:
`maya.OpenMaya` (api1) and `maya.api.OpenMaya` (api2). -/
inductive ApiNs where
  /-- `maya.OpenMaya`. -/
  | api1
  /-- `maya.api.OpenMaya`. -/
  | api2
deriving DecidableEq, Repr

/-- Embedding of the inner `setApiNames(name, attrs, api1ignores)` of
`initApiImmutables` (initmaya.py lines 130-143): writes the api2 entry,
then the api1 entry with `api1ignores` filtered out when that argument is
truthy (the `None` default is the empty list here).  A class is keyed by
its namespace and name. -/
def setApiNames (name : String) (attrs : List String) (api1ignores : List String)
    (dict : List ((ApiNs × String) × List String)) :
    List ((ApiNs × String) × List String) :=
  let dict := ((ApiNs.api2, name), attrs) :: dict
  let attrs1 := if api1ignores.isEmpty then attrs
    else attrs.filter (fun x => !(api1ignores.contains x))
  ((ApiNs.api1, name), attrs1) :: dict

/-- The entries `initApiImmutables` (initmaya.py lines 145-177) writes into
`OPTIONAL_MUTATOR_DICT`, applied in source order to an entry-free table
(newest entry first; all ten keys are distinct). -/
def apiImmutablesDict : List ((ApiNs × String) × List String) :=
  setApiNames "MMatrix" ["setElement", "setToIdentity", "setToProduct"] ["setElement"]
    (setApiNames "MQuaternion"
      ["conjugateIt", "invertIt", "negateIt", "normalizeIt",
       "setToXAxis", "setToYAxis", "setToZAxis", "setValue"] ["setValue"]
      (setApiNames "MEulerRotation"
        ["boundIt", "incrementalRotateBy", "invertIt", "reorderIt",
         "setToAlternateSolution", "setToClosestCut", "setToClosestSolution",
         "setValue"] []
        (setApiNames "MPoint" ["cartesianize", "rationalize", "homogenize"] []
          (setApiNames "MVector" ["normalize"] [] []))))

/-- Lookup in the embedded `OPTIONAL_MUTATOR_DICT` delta. -/
def dictLookup (ns : ApiNs) (name : String) : Option (List String) :=
  (apiImmutablesDict.find? (fun e => decide (e.1 = (ns, name)))).map Prod.snd

/-- C7: `initApiImmutables` records mutator lists for exactly the five
classes MVector, MPoint, MEulerRotation, MQuaternion, MMatrix in both API
namespaces, and each api1 entry equals the api2 entry except that api1
MQuaternion omits `setValue` and api1 MMatrix omits `setElement`. -/
theorem api_immutables_table_c7 :
    apiImmutablesDict.map Prod.fst =
      [(ApiNs.api1, "MMatrix"), (ApiNs.api2, "MMatrix"),
       (ApiNs.api1, "MQuaternion"), (ApiNs.api2, "MQuaternion"),
       (ApiNs.api1, "MEulerRotation"), (ApiNs.api2, "MEulerRotation"),
       (ApiNs.api1, "MPoint"), (ApiNs.api2, "MPoint"),
       (ApiNs.api1, "MVector"), (ApiNs.api2, "MVector")] ∧
    dictLookup ApiNs.api1 "MVector" = dictLookup ApiNs.api2 "MVector" ∧
    dictLookup ApiNs.api1 "MPoint" = dictLookup ApiNs.api2 "MPoint" ∧
    dictLookup ApiNs.api1 "MEulerRotation" =
      dictLookup ApiNs.api2 "MEulerRotation" ∧
    dictLookup ApiNs.api1 "MQuaternion" =
      (dictLookup ApiNs.api2 "MQuaternion").map
        (List.filter (fun x => !(x == "setValue"))) ∧
    dictLookup ApiNs.api1 "MMatrix" =
      (dictLookup ApiNs.api2 "MMatrix").map
        (List.filter (fun x => !(x == "setElement"))) := by
  refine ⟨rfl, rfl, rfl, rfl, ?_, ?_⟩ <;> decide

/-! ### `_initMayaAppDir` and `_initMayaLocation` -/

/-- Python string truthiness of an `os.environ.get` result: `None` and the
empty string are falsy; every other string is truthy. -/
def envTruthy : Option String → Bool
  | none => false
  | some s => !(s == "")

/-- Point update of the environment, `os.environ[k] = v`. -/
def envSet (env : String → Option String) (k v : String) : String → Option String :=
  fun x => if x = k then some v else env x

/-- Embedding of `_initMayaAppDir` (initmaya.py lines 181-192): returns the
updated environment and the function's return value.  `os.path.join` with a
relative second operand is embedded as joining with '/'; `userDocPath` is
`pyutils.USER_DOC_PATH`, a process constant. -/
def initMayaAppDirOf (userDocPath : String) (env : String → Option String) :
    (String → Option String) × String :=
  let path := env "MAYA_APP_DIR"
  if envTruthy path then (env, path.getD "")
  else
    let p := userDocPath ++ "/maya"
    (envSet env "MAYA_APP_DIR" p, p)

/-- Embedding of `_initMayaLocation` (initmaya.py lines 195-210).
`derived` stands for `normpath(join(dirname(maya.__file__), '../../../..'))`,
the install path derived from the location of the `maya` package, and
`isdir` for the file-system probe; both are process constants.  The `and`
in the source short-circuits exactly as `&&` does here. -/
def initMayaLocationOf (isdir : String → Bool) (derived : String)
    (env : String → Option String) : (String → Option String) × String :=
  let path := env "MAYA_LOCATION"
  if envTruthy path && isdir (path.getD "" ++ "/scripts/AETemplates") then
    (env, path.getD "")
  else
    (envSet env "MAYA_LOCATION" derived, derived)

/-- C5: `_initMayaAppDir` keeps the environment unchanged when MAYA_APP_DIR
is set non-empty and otherwise sets it to `<user documents>/maya`;
`_initMayaLocation` keeps the environment unchanged exactly when
MAYA_LOCATION is set non-empty with `scripts/AETemplates` present under it
and otherwise overwrites it with the path derived from the `maya` package
location; neither touches any other environment variable. -/
theorem env_init_frame_c5 (userDocPath derived : String)
    (isdir : String → Bool) (env : String → Option String) :
    (envTruthy (env "MAYA_APP_DIR") = true →
      initMayaAppDirOf userDocPath env = (env, (env "MAYA_APP_DIR").getD "")) ∧
    (envTruthy (env "MAYA_APP_DIR") = false →
      (initMayaAppDirOf userDocPath env).1 =
        envSet env "MAYA_APP_DIR" (userDocPath ++ "/maya")) ∧
    (∀ k, k ≠ "MAYA_APP_DIR" → (initMayaAppDirOf userDocPath env).1 k = env k) ∧
    ((envTruthy (env "MAYA_LOCATION") = true ∧
        isdir ((env "MAYA_LOCATION").getD "" ++ "/scripts/AETemplates") = true) →
      initMayaLocationOf isdir derived env = (env, (env "MAYA_LOCATION").getD "")) ∧
    (¬(envTruthy (env "MAYA_LOCATION") = true ∧
        isdir ((env "MAYA_LOCATION").getD "" ++ "/scripts/AETemplates") = true) →
      (initMayaLocationOf isdir derived env).1 = envSet env "MAYA_LOCATION" derived) ∧
    (∀ k, k ≠ "MAYA_LOCATION" → (initMayaLocationOf isdir derived env).1 k = env k) := by
  refine ⟨?_, ?_, ?_, ?_, ?_, ?_⟩
  · intro h
    simp [initMayaAppDirOf, h]
  · intro h
    simp [initMayaAppDirOf, h]
  · intro k hk
    by_cases h : envTruthy (env "MAYA_APP_DIR") <;>
      simp [initMayaAppDirOf, h, envSet, hk]
  · intro h
    simp [initMayaLocationOf, h.1, h.2]
  · intro h
    rw [not_and_or] at h
    rcases h with h | h
    · simp only [Bool.not_eq_true] at h
      simp [initMayaLocationOf, h]
    · simp only [Bool.not_eq_true] at h
      simp [initMayaLocationOf, h]
  · intro k hk
    by_cases h : envTruthy (env "MAYA_LOCATION") &&
        isdir ((env "MAYA_LOCATION").getD "" ++ "/scripts/AETemplates") <;>
      simp [initMayaLocationOf, h, envSet, hk]

/-- Environment with MAYA_APP_DIR already set to a non-empty value. -/
def sampleEnvA : String → Option String :=
  fun k => if k = "MAYA_APP_DIR" then some "/home/user/documents/maya" else none

/-- Environment with nothing set. -/
def sampleEnvB : String → Option String := fun _ => none

/-- Witness for C5: with MAYA_APP_DIR set non-empty the environment is
untouched, and with MAYA_LOCATION unset it is overwritten with the derived
path. -/
theorem env_init_frame_c5_witness :
    initMayaAppDirOf "/home/user/documents" sampleEnvA =
      (sampleEnvA, (sampleEnvA "MAYA_APP_DIR").getD "") ∧
    (initMayaLocationOf (fun _ => false) "/usr/autodesk/maya2016" sampleEnvB).1 =
      envSet sampleEnvB "MAYA_LOCATION" "/usr/autodesk/maya2016" :=
  ⟨(env_init_frame_c5 "/home/user/documents" "" (fun _ => false) sampleEnvA).1
      (by decide),
   (env_init_frame_c5 "/home/user/documents" "/usr/autodesk/maya2016"
      (fun _ => false) sampleEnvB).2.2.2.2.1 (by decide)⟩

/-! ### `_initMayaStandalone` and `_call_userSetup_pys` -/

/-- Bare `try: act except: pass`: every exception is mapped to a normal
return. -/
def tryPass (act : Except String Unit) : Except String Unit :=
  match act with
  | .ok u => .ok u
  | .error _ => .ok ()

/-- One `sys.path` entry as `_call_userSetup_pys` sees it: the path string,
whether `<path>/userSetup.py` is a file, and what `_execfile` on that file
does (normal return or an exception). -/
structure PathEntry where
  path : String
  hasUserSetup : Bool
  execOutcome : Except String Unit

/-- Embedding of `_call_userSetup_pys` (initmaya.py lines 246-256): walks
`sys.path` in order and runs each existing `userSetup.py` inside
`try/except: pass`.  The value lists the executed files in order; the
`Except` layer is the function's own exception behaviour. -/
def callUserSetupPys : List PathEntry → Except String (List String)
  | [] => .ok []
  | e :: rest =>
    if e.hasUserSetup then
      match tryPass e.execOutcome with
      | .error err => .error err
      | .ok _ => (callUserSetupPys rest).map (fun l => (e.path ++ "/userSetup.py") :: l)
    else callUserSetupPys rest

/-- The `_uninitialize` wrapper that `_initMayaStandalone` registers with
`atexit` (initmaya.py lines 225-231): call the captured teardown and
swallow every exception. -/
def atexitWrapper (teardown : Unit → Except String Unit) : Unit → Except String Unit :=
  fun _ => tryPass (teardown ())

/-- What `_initMayaStandalone` sees of the process: `teardown?` is the
`getattr(maya.standalone, 'uninitialize', None)` result (when present it
is a function, hence truthy), `probeMjv` the outcome of
`int(cmds.about(mjv=True))`, and `paths` the `sys.path` entries.
`maya.standalone.initialize(name='cymel')` itself is taken to return (its
failure is outside every claim). -/
structure StandaloneCtx where
  teardown? : Option (Unit → Except String Unit)
  probeMjv : Except String Int
  paths : List PathEntry

/-- The hooks `_initMayaStandalone` hands to `atexit.register`: one wrapper
when the teardown attribute exists, none otherwise. -/
def registeredHooks (c : StandaloneCtx) : List (Unit → Except String Unit) :=
  match c.teardown? with
  | some f => [atexitWrapper f]
  | none => []

/-- Embedding of `_initMayaStandalone` (initmaya.py lines 213-243) from the
point after `maya.standalone.initialize` returns: the result carries the
executed userSetup.py files and the registered atexit hooks.  The version
probe sits in `try/except: pass`, so its failure selects the
no-userSetup branch (`else` is skipped). -/
def initMayaStandaloneOf (c : StandaloneCtx) :
    Except String (List String × List (Unit → Except String Unit)) :=
  match c.probeMjv with
  | .error _ => .ok ([], registeredHooks c)
  | .ok v =>
    if 2021 ≤ v then
      match callUserSetupPys c.paths with
      | .error err => .error err
      | .ok files => .ok (files, registeredHooks c)
    else .ok ([], registeredHooks c)

/-- Helper: `_call_userSetup_pys` always returns normally, with exactly the
existing userSetup.py files in `sys.path` order. -/
theorem callUserSetupPys_eq (paths : List PathEntry) :
    callUserSetupPys paths =
      .ok (paths.filterMap
        (fun e => if e.hasUserSetup then some (e.path ++ "/userSetup.py") else none)) := by
  induction paths with
  | nil => rfl
  | cons e rest ih =>
    by_cases h : e.hasUserSetup
    · cases hx : e.execOutcome <;>
        simp [callUserSetupPys, tryPass, h, hx, ih, Except.map]
    · simp [callUserSetupPys, h, ih]

/-- C4: an exception from any one userSetup.py is swallowed
(`_call_userSetup_pys` returns normally with every existing userSetup.py on
`sys.path` executed in path order, whatever each execution did), and a
failing `int(about(mjv=True))` probe does not propagate out of
`_initMayaStandalone`. -/
theorem user_setup_exceptions_swallowed_c4 (paths : List PathEntry)
    (c : StandaloneCtx) :
    callUserSetupPys paths =
      .ok (paths.filterMap
        (fun e => if e.hasUserSetup then some (e.path ++ "/userSetup.py") else none)) ∧
    ∃ r, initMayaStandaloneOf c = .ok r := by
  refine ⟨callUserSetupPys_eq paths, ?_⟩
  obtain ⟨t, probe, ps⟩ := c
  cases probe with
  | error e => exact ⟨_, rfl⟩
  | ok v =>
    by_cases h : 2021 ≤ v
    · simp only [initMayaStandaloneOf, if_pos h, callUserSetupPys_eq ps]
      exact ⟨_, rfl⟩
    · simp only [initMayaStandaloneOf, if_neg h]
      exact ⟨_, rfl⟩

/-- C6: `_initMayaStandalone` registers an exit-time hook exactly when
`maya.standalone` exposes an `uninitialize` attribute, and every registered
hook swallows every exception its teardown raises, so teardown failure
never propagates at interpreter exit. -/
theorem atexit_teardown_c6 (c : StandaloneCtx) :
    (registeredHooks c ≠ [] ↔ c.teardown?.isSome = true) ∧
    (∃ files, initMayaStandaloneOf c = .ok (files, registeredHooks c)) ∧
    (∀ h ∈ registeredHooks c, ∀ u : Unit, h u = .ok ()) ∧
    (∀ f : Unit → Except String Unit, ∀ u : Unit, atexitWrapper f u = .ok ()) := by
  refine ⟨?_, ?_, ?_, ?_⟩
  · obtain ⟨t, probe, ps⟩ := c
    cases t <;> simp [registeredHooks]
  · obtain ⟨t, probe, ps⟩ := c
    cases probe with
    | error e => exact ⟨_, rfl⟩
    | ok v =>
      by_cases h : 2021 ≤ v
      · simp only [initMayaStandaloneOf, if_pos h, callUserSetupPys_eq ps]
        exact ⟨_, rfl⟩
      · simp only [initMayaStandaloneOf, if_neg h]
        exact ⟨_, rfl⟩
  · intro h hmem u
    obtain ⟨t, probe, ps⟩ := c
    cases t with
    | none => simp [registeredHooks] at hmem
    | some f =>
      simp only [registeredHooks, List.mem_singleton] at hmem
      subst hmem
      show tryPass (f ()) = _
      cases f () <;> rfl
  · intro f u
    show tryPass (f ()) = _
    cases f () <;> rfl

/-- Witness for C6: the wrapper around a teardown that raises still returns
normally. -/
theorem atexit_teardown_c6_witness :
    atexitWrapper (fun _ => Except.error "maya teardown failed") () = .ok () :=
  (atexit_teardown_c6
      ⟨some (fun _ => Except.error "maya teardown failed"), Except.error "probe", []⟩).2.2.1
    (atexitWrapper (fun _ => Except.error "maya teardown failed"))
    (by simp [registeredHooks]) ()

/-! ### The module state machine: `initialize` and `initMaya`

`initialize` guards on the module global `_NOT_INITIALIZED` and runs
`initCymelPluginsPath()`, `initMaya() and callUserSetupMel()`,
`initApiImmutables()` in that order.  We track the module state the claims
mention (the guard, whether the Maya runtime is up, MAYA_VERSION) plus a
trace of which of the four procedures a call invokes; the per-procedure
environment effects are the separate embeddings above.
-/

/-- The four procedures `initialize` steps through, as trace events. -/
inductive Ev where
  /-- `initCymelPluginsPath()`. -/
  | initCymelPluginsPath
  /-- `initMaya()`. -/
  | initMaya
  /-- `callUserSetupMel()`. -/
  | callUserSetupMel
  /-- `initApiImmutables()`. -/
  | initApiImmutables
deriving DecidableEq, Repr

/-- Process-fixed data `_initCymelConstants` reads from the Maya runtime:
the `about(mjv/mnv/pv)` probe outcome, the parsed MAYA_PRODUCT_VERSION
components and `about(api=True)`.  A mayapy process never changes these. -/
structure MayaProc where
  probe : Option (Int × Int × Int)
  pvMajor : Nat
  pvRest : List Nat
  api : Int

/-- The module state the claims mention: the `_NOT_INITIALIZED` guard of
`initialize`, whether the Maya runtime is initialized (what
`isMayaInitialized()` reports), and the module global MAYA_VERSION
(`None` before its first computation). -/
structure MState where
  notInitialized : Bool
  mayaRunning : Bool
  mayaVersion : Option (List Int)
deriving DecidableEq, Repr

/-- Embedding of `_initCymelConstants` at the state level (initmaya.py
lines 259-310): recomputes MAYA_VERSION from the process-fixed probe data
and rebinds the module global. -/
def initCymelConstantsS (p : MayaProc) (s : MState) : MState :=
  { s with mayaVersion := some (computeMayaVersion p.probe p.pvMajor p.pvRest p.api) }

/-- Embedding of `initMaya` (initmaya.py lines 89-109): `ret` is
`not isMayaInitialized()`; when it holds the three `_init*` helpers run
(their environment effects are the embeddings above, and
`_initMayaStandalone` brings the runtime up); `_initCymelConstants` runs
either way; `ret` is returned. -/
def initMayaS (p : MayaProc) (s : MState) : MState × Bool :=
  let ret := !s.mayaRunning
  let s1 := if ret then { s with mayaRunning := true } else s
  (initCymelConstantsS p s1, ret)

/-- Embedding of `initialize` (initmaya.py lines 43-62): behind the
`_NOT_INITIALIZED` guard it runs `initCymelPluginsPath()`, then
`initMaya() and callUserSetupMel()` (the `and` short-circuits on
`initMaya`'s Bool), then `initApiImmutables()`, then lowers the guard.
The second component is the trace of invoked procedures. -/
def initializeS (p : MayaProc) (s : MState) : MState × List Ev :=
  if s.notInitialized then
    ({ (initMayaS p s).1 with notInitialized := false },
     [Ev.initCymelPluginsPath, Ev.initMaya] ++
       (if (initMayaS p s).2 then [Ev.callUserSetupMel] else []) ++
       [Ev.initApiImmutables])
  else (s, [])

/-- C2: on its first call (guard still up), `initialize` invokes
initCymelPluginsPath, then initMaya, then callUserSetupMel exactly when
initMaya returned True, then initApiImmutables; and initMaya returns True
exactly when Maya was not already initialized before the call. -/
theorem initialize_order_c2 (p : MayaProc) (s : MState)
    (hfirst : s.notInitialized = true) :
    (initializeS p s).2 =
      [Ev.initCymelPluginsPath, Ev.initMaya] ++
        (if (initMayaS p s).2 then [Ev.callUserSetupMel] else []) ++
        [Ev.initApiImmutables] ∧
    ((initMayaS p s).2 = true ↔ s.mayaRunning = false) := by
  constructor
  · simp [initializeS, hfirst]
  · simp [initMayaS]

/-- Witness for C2 at a fresh module state in a process where Maya is not
yet initialized. -/
theorem initialize_order_c2_witness :
    (initializeS ⟨some (2024, 2, 1), 2024, [], 20240201⟩ ⟨true, false, none⟩).2 =
      [Ev.initCymelPluginsPath, Ev.initMaya] ++
        (if (initMayaS ⟨some (2024, 2, 1), 2024, [], 20240201⟩
              ⟨true, false, none⟩).2
          then [Ev.callUserSetupMel] else []) ++
        [Ev.initApiImmutables] ∧
    ((initMayaS ⟨some (2024, 2, 1), 2024, [], 20240201⟩ ⟨true, false, none⟩).2 = true ↔
      (⟨true, false, none⟩ : MState).mayaRunning = false) :=
  initialize_order_c2 ⟨some (2024, 2, 1), 2024, [], 20240201⟩ ⟨true, false, none⟩ rfl

/-- C3: `initialize` is idempotent: after one completed call every further
call invokes none of the four procedures and returns the module state
unchanged. -/
theorem initialize_idempotent_c3 (p : MayaProc) (s : MState) :
    initializeS p (initializeS p s).1 = ((initializeS p s).1, []) := by
  by_cases h : s.notInitialized <;> simp [initializeS, h]

/-- C8: MAYA_VERSION is determined by the process-fixed probe data: every
`initMaya` call rebinds it to that one value, so once it holds that value
neither `initMaya` nor `initialize` ever changes it. -/
theorem maya_version_immutable_c8 (p : MayaProc) (s : MState)
    (h : s.mayaVersion = some (computeMayaVersion p.probe p.pvMajor p.pvRest p.api)) :
    (initMayaS p s).1.mayaVersion = s.mayaVersion ∧
    (initializeS p s).1.mayaVersion = s.mayaVersion ∧
    ∀ s' : MState, (initMayaS p s').1.mayaVersion =
      some (computeMayaVersion p.probe p.pvMajor p.pvRest p.api) := by
  refine ⟨?_, ?_, ?_⟩
  · simp [initMayaS, initCymelConstantsS, h]
  · by_cases hg : s.notInitialized <;>
      simp [initializeS, initMayaS, initCymelConstantsS, hg, h]
  · intro s'
    simp [initMayaS, initCymelConstantsS]

/-- Witness for C8: a Maya 2016.5 process whose MAYA_VERSION has been
computed keeps it across further `initMaya` and `initialize` calls. -/
theorem maya_version_immutable_c8_witness :
    (initMayaS ⟨none, 2016, [5], 201610⟩
        ⟨false, true, some [2016, 5, 0]⟩).1.mayaVersion =
      (⟨false, true, some [2016, 5, 0]⟩ : MState).mayaVersion ∧
    (initializeS ⟨none, 2016, [5], 201610⟩
        ⟨false, true, some [2016, 5, 0]⟩).1.mayaVersion =
      (⟨false, true, some [2016, 5, 0]⟩ : MState).mayaVersion ∧
    ∀ s' : MState, (initMayaS ⟨none, 2016, [5], 201610⟩ s').1.mayaVersion =
      some (computeMayaVersion none 2016 [5] 201610) :=
  maya_version_immutable_c8 ⟨none, 2016, [5], 201610⟩
    ⟨false, true, some [2016, 5, 0]⟩ (by decide)

end Cymel
